import Mathlib

/-!
Verification development for `telegram_bot/bot.py` (LabelSpy OCR bot).

The Python source is shallowly embedded: each handler becomes a pure Lean
function over an explicit session/state record, with the results of the two
remote gateways (Yandex OCR, Gemini) passed in as oracle parameters and the
outbound Telegram messages modelled as structured presentation events.
SQLite's `analyses` table is modelled as a list of `HistoryRecord`s.
Python exceptions escaping a handler are modelled by a `raised` flag: once
set, the remainder of the handler body does not run.
-/

namespace LabelSpy

/-- JSON values, as produced by Python's `json.loads`.  Numeric literals are
modelled as integers only: fractional and exponent literals (and the
`NaN`/`Infinity` floats `json.loads` also accepts) are outside the model,
since float values are not representable here; none of the payloads the
theorems exercise contain them. -/
inductive Json where
  | null
  | bool (b : Bool)
  | num (n : Int)
  | str (s : String)
  | arr (elems : List Json)
  | obj (fields : List (String × Json))

/-- Whitespace characters skipped by the JSON parser. -/
def isWs (c : Char) : Bool :=
  c == ' ' || c == '\t' || c == '\n' || c == '\r'

/-- Drop leading JSON whitespace. -/
def skipWs : List Char → List Char
  | [] => []
  | c :: cs => if isWs c then skipWs cs else c :: cs

/-- Value of a hexadecimal digit, if any. -/
def hexDigit (c : Char) : Option Nat :=
  if '0' ≤ c ∧ c ≤ '9' then some (c.toNat - '0'.toNat)
  else if 'a' ≤ c ∧ c ≤ 'f' then some (c.toNat - 'a'.toNat + 10)
  else if 'A' ≤ c ∧ c ≤ 'F' then some (c.toNat - 'A'.toNat + 10)
  else none

/-- Single-character JSON string escapes accepted by `json.loads`. -/
def escChar (c : Char) : Option Char :=
  if c = '"' then some '"'
  else if c = '\\' then some '\\'
  else if c = '/' then some '/'
  else if c = 'n' then some '\n'
  else if c = 't' then some '\t'
  else if c = 'r' then some '\r'
  else if c = 'b' then some (Char.ofNat 8)
  else if c = 'f' then some (Char.ofNat 12)
  else none

/-- Parse the body of a JSON string literal (the opening quote already
consumed), returning the decoded string and the rest of the input. -/
def parseStrBody (acc : List Char) : List Char → Option (String × List Char)
  | [] => none
  | '"' :: cs => some (String.mk acc.reverse, cs)
  | '\\' :: 'u' :: a :: b :: c :: d :: cs =>
    match hexDigit a, hexDigit b, hexDigit c, hexDigit d with
    | some x, some y, some z, some w =>
      parseStrBody (Char.ofNat (((x * 16 + y) * 16 + z) * 16 + w) :: acc) cs
    | _, _, _, _ => none
  | '\\' :: e :: cs =>
    match escChar e with
    | some c => parseStrBody (c :: acc) cs
    | none => none
  | c :: cs => parseStrBody (c :: acc) cs

/-- Read a run of decimal digits, accumulating their value. -/
def digitsToNat (acc : Nat) : List Char → Nat × List Char
  | [] => (acc, [])
  | c :: cs =>
    if '0' ≤ c ∧ c ≤ '9' then digitsToNat (acc * 10 + (c.toNat - '0'.toNat)) cs
    else (acc, c :: cs)

/-- Parse an (integer) JSON numeric literal.  As in JSON's grammar, a
leading zero followed by another digit is invalid (`json.loads` rejects
`01`), and a fraction or exponent continuation falls outside the
integer-valued model. -/
def parseNum (cs : List Char) : Option (Json × List Char) :=
  let signed : Bool × List Char :=
    match cs with
    | '-' :: rest => (true, rest)
    | _ => (false, cs)
  match signed.2 with
  | [] => none
  | c :: cs2 =>
    if '0' ≤ c ∧ c ≤ '9' then
      let leadingZero : Bool :=
        c == '0' &&
          (match cs2 with
           | c2 :: _ => decide ('0' ≤ c2 ∧ c2 ≤ '9')
           | [] => false)
      if leadingZero then none
      else
        let p := digitsToNat 0 (c :: cs2)
        match p.2 with
        | '.' :: _ => none
        | 'e' :: _ => none
        | 'E' :: _ => none
        | _ => some (.num (if signed.1 then -(p.1 : Int) else (p.1 : Int)), p.2)
    else none

/-- Consume an expected literal character sequence. -/
def expectLit : List Char → List Char → Option (List Char)
  | [], rest => some rest
  | l :: ls, c :: rest => if c = l then expectLit ls rest else none
  | _ :: _, [] => none

/-- Set a key in an object's field list, Python-dict style: an existing key
keeps its position and gets the new value, a new key is appended. -/
def setKey : List (String × Json) → String → Json → List (String × Json)
  | [], k, v => [(k, v)]
  | (k0, v0) :: fs, k, v =>
    if k0 = k then (k0, v) :: fs else (k0, v0) :: setKey fs k v

mutual

/-- Fuel-indexed recursive-descent JSON value parser (model of `json.loads`'s
grammar).  Returns the parsed value and the unconsumed suffix. -/
def parseVal : Nat → List Char → Option (Json × List Char)
  | 0, _ => none
  | fuel + 1, cs =>
    match skipWs cs with
    | [] => none
    | c :: rest =>
      if c = '"' then
        match parseStrBody [] rest with
        | some (s, r) => some (.str s, r)
        | none => none
      else if c = 't' then (expectLit ['r', 'u', 'e'] rest).map (fun r => (.bool true, r))
      else if c = 'f' then (expectLit ['a', 'l', 's', 'e'] rest).map (fun r => (.bool false, r))
      else if c = 'n' then (expectLit ['u', 'l', 'l'] rest).map (fun r => (.null, r))
      else if c = '\x7b' then
        match skipWs rest with
        | '\x7d' :: r2 => some (.obj [], r2)
        | r2 => parseObjFields fuel r2 []
      else if c = '[' then
        match skipWs rest with
        | ']' :: r2 => some (.arr [], r2)
        | r2 => parseArrElems fuel r2 []
      else parseNum (c :: rest)

/-- Parse the elements of a (non-empty) JSON array. -/
def parseArrElems : Nat → List Char → List Json → Option (Json × List Char)
  | 0, _, _ => none
  | fuel + 1, cs, acc =>
    match parseVal fuel cs with
    | none => none
    | some (v, r) =>
      match skipWs r with
      | ',' :: r2 => parseArrElems fuel r2 (v :: acc)
      | ']' :: r2 => some (.arr (v :: acc).reverse, r2)
      | _ => none

/-- Parse the fields of a (non-empty) JSON object. -/
def parseObjFields : Nat → List Char → List (String × Json) → Option (Json × List Char)
  | 0, _, _ => none
  | fuel + 1, cs, acc =>
    match skipWs cs with
    | '"' :: r =>
      match parseStrBody [] r with
      | none => none
      | some (k, r2) =>
        match skipWs r2 with
        | ':' :: r3 =>
          match parseVal fuel r3 with
          | none => none
          | some (v, r4) =>
            match skipWs r4 with
            | ',' :: r5 => parseObjFields fuel r5 (setKey acc k v)
            | '\x7d' :: r5 => some (.obj (setKey acc k v), r5)
            | _ => none
        | _ => none
    | _ => none

end

/-- Model of Python's `json.loads`: parse one JSON value and require that
nothing but whitespace follows it. -/
def json_loads (s : String) : Option Json :=
  match parseVal (2 * s.length + 2) s.toList with
  | some (v, rest) => if (skipWs rest).isEmpty then some v else none
  | none => none

/-- The span matched by `re.search(r'\x7b[\s\S]*\x7d', content)` in
`analyze_with_gemini`: from the first opening brace to the last closing
brace of the whole text (the leftmost match start, with a greedy body). -/
def greedyBraceSpan (s : String) : Option String :=
  let cs := s.toList
  match cs.findIdx? (fun c => c = '\x7b') with
  | none => none
  | some i =>
    match cs.reverse.findIdx? (fun c => c = '\x7d') with
    | none => none
    | some k =>
      let j := cs.length - 1 - k
      if i < j then some (String.mk ((cs.drop i).take (j - i + 1))) else none

/-- The structured-payload extraction performed by `analyze_with_gemini`:
take the greedy regex span and run `json.loads` on it; a parse error is
caught by the surrounding `try` and yields `None`. -/
def extractStructured (content : String) : Option Json :=
  (greedyBraceSpan content).bind json_loads

/-- Scan forward from an opening brace, tracking brace depth and string
literals (with escapes), and return the prefix up to the matching closing
brace.  Helper for the spec-side extraction rule. -/
def scanBalanced : List Char → Nat → Bool → Bool → List Char → Option (List Char)
  | [], _, _, _, _ => none
  | c :: cs, depth, inStr, afterBs, acc =>
    if inStr then
      if afterBs then scanBalanced cs depth true false (c :: acc)
      else if c = '\\' then scanBalanced cs depth true true (c :: acc)
      else if c = '"' then scanBalanced cs depth false false (c :: acc)
      else scanBalanced cs depth true false (c :: acc)
    else if c = '"' then scanBalanced cs depth true false (c :: acc)
    else if c = '\x7b' then scanBalanced cs (depth + 1) false false (c :: acc)
    else if c = '\x7d' then
      if depth = 1 then some (c :: acc).reverse
      else if depth = 0 then none
      else scanBalanced cs (depth - 1) false false (c :: acc)
    else scanBalanced cs depth false false (c :: acc)

/-- Spec-side extraction rule, following the spec's words: the first balanced
top-level object literal occurring in the text (`none` when no such balanced
literal exists).  This is the rule the claims compare the code against. -/
def firstBalancedObject (s : String) : Option String :=
  let cs := s.toList
  match cs.findIdx? (fun c => c = '\x7b') with
  | none => none
  | some i => (scanBalanced (cs.drop i) 0 false false []).map String.mk

/-! ## Recognition Gateway (`ocr_recognize`) -/

/-- One `words` entry of the Yandex Vision response (`symbol` in the code's
loop); `text` is read with `.get('text', '')`. -/
structure OcrWord where
  text : Option String

/-- One `lines` entry (`word` in the code's loop). -/
structure OcrLine where
  words : Option (List OcrWord)

/-- One `blocks` entry (`line` in the code's loop). -/
structure OcrBlock where
  lines : Option (List OcrLine)

/-- One `pages` entry (`block` in the code's loop). -/
structure OcrPage where
  blocks : Option (List OcrBlock)

/-- The `textDetection` object of one result item. -/
structure OcrTextDetection where
  pages : Option (List OcrPage)

/-- One `results` entry of the response. -/
structure OcrResultItem where
  textDetection : Option OcrTextDetection

/-- The parsed JSON body of the Yandex Vision response. -/
structure OcrResponse where
  results : Option (List OcrResultItem)

/-- The nested accumulation loop of `ocr_recognize`: every absent field
contributes its default (`[]` or `''`), fragments are concatenated with no
added separators, in provider order. -/
def collectText (r : OcrResponse) : String :=
  String.join <| (r.results.getD []).map fun item =>
    String.join <| ((item.textDetection.getD ⟨none⟩).pages.getD []).map fun page =>
      String.join <| (page.blocks.getD []).map fun block =>
        String.join <| (block.lines.getD []).map fun line =>
          String.join <| (line.words.getD []).map fun word => word.text.getD ""

/-- Outcome of the remote OCR call as seen inside `ocr_recognize`'s `try`
block: either some exception was raised (file read, network, `resp.json()`),
or a response with an HTTP status and a parsed JSON body arrived. -/
inductive OcrCall where
  | exn
  | response (status : Nat) (body : OcrResponse)

/-- `ocr_recognize`: on any exception the handler logs and falls through to
`return None`; on a non-200 status it falls through to `return None`; on a
200 status it returns the concatenated text (possibly the empty string). -/
def ocr_recognize : OcrCall → Option String
  | .exn => none
  | .response status body => if status = 200 then some (collectText body) else none

/-! ## Analysis Gateway (`analyze_with_gemini`) -/

/-- Outcome of the remote Gemini call: an exception inside the `try` block,
or a response with an HTTP status and a parsed JSON body. -/
inductive GeminiCall where
  | exn
  | response (status : Nat) (body : Json)

/-- The chained navigation
`result.get('candidates', [{}])[0].get('content', {}).get('parts', [{}])[0].get('text', '')`:
`none` models a raised `TypeError`/`AttributeError`/`IndexError` (indexing an
empty or non-list value, `.get` on a non-dict, or a non-string `text` handed
to `re.search`), all of which the surrounding `try` catches. -/
def geminiContent (body : Json) : Option String :=
  match body with
  | .obj fs =>
    match (fs.lookup "candidates").getD (.arr [.obj []]) with
    | .arr (c0 :: _) =>
      match c0 with
      | .obj cfs =>
        match (cfs.lookup "content").getD (.obj []) with
        | .obj cofs =>
          match (cofs.lookup "parts").getD (.arr [.obj []]) with
          | .arr (p0 :: _) =>
            match p0 with
            | .obj pfs =>
              match (pfs.lookup "text").getD (.str "") with
              | .str t => some t
              | _ => none
            | _ => none
          | _ => none
        | _ => none
      | _ => none
    | _ => none
  | _ => none

/-- `analyze_with_gemini`: `None` on exception or non-200 status; on a 200
response, extract the text content and run the regex/`json.loads` extraction
on it.  Total: every failure path returns `None`, never raises. -/
def analyze_with_gemini : GeminiCall → Option Json
  | .exn => none
  | .response status body =>
    if status = 200 then
      match geminiContent body with
      | some content => extractStructured content
      | none => none
    else none

/-! ## Session State, History Store and presentation events -/

/-- Per-user `context.user_data` as used by the bot.  The code stores the
keys `last_composition`, `last_photo_path` and `last_analysis`; no recipes
are ever stored. -/
structure Session where
  last_composition : Option String
  last_photo_path : Option String
  last_analysis : Option Json

/-- A fresh `user_data` dict: no keys present. -/
def Session.empty : Session := ⟨none, none, none⟩

/-- One row of the `analyses` SQLite table. -/
structure HistoryRecord where
  id : Nat
  user_id : Nat
  username : String
  product_name : Json
  composition : String
  verdict : Json
  risk_level : Json
  json_result : Json
  created_at : Nat

/-- A call made to `analyze_with_gemini`, recorded as (mode, text argument).
The text is `Option String` because the recipes branch passes
`user_data.get('last_composition')`, which may be `None`. -/
structure GatewayCall where
  mode : String
  text : Option String
deriving DecidableEq

/-- Outbound Telegram messages, modelled as structured presentation events
carrying the data the code interpolates into each text. -/
inductive OutMsg where
  | recognizing
  | ocrFailed
  | preview (text : String)
  | textNotFound
  | analyzing
  | analysisFailed
  | analysisView (emoji : String) (productName verdict : Json) (analysis : Json)
  | generatingRecipes
  | recipesFailed
  | recipesView (shown : List Json)
  | backView (emoji : String) (productName verdict : Json)
  | cancelled
  | welcome
  | helpText
  | historyEmpty
  | historyView (rows : List (Json × Json × Json × Nat))

/-- Python truthiness of a JSON value (`if not x`). -/
def pyFalsy : Json → Bool
  | .null => true
  | .bool b => !b
  | .num n => n == 0
  | .str s => s == ""
  | .arr xs => xs.isEmpty
  | .obj fs => fs.isEmpty

/-- Python truthiness of an optional JSON value (`None` is falsy). -/
def pyFalsyO : Option Json → Bool
  | none => true
  | some v => pyFalsy v

/-- `dict.get(k)` on a parsed JSON object (`None` when absent or when the
value is not an object). -/
def jget (j : Json) (k : String) : Option Json :=
  match j with
  | .obj fs => fs.lookup k
  | _ => none

/-- `dict.get(k, d)` on a parsed JSON object. -/
def jgetD (j : Json) (k : String) (d : Json) : Json :=
  (jget j k).getD d

/-- The risk emoji `{'safe': '✅', 'moderate': '⚠️', 'high': '🔴'}.get(value, '❓')`. -/
def riskEmoji (v : Option Json) : String :=
  match v with
  | some (.str s) =>
    if s = "safe" then "✅"
    else if s = "moderate" then "⚠️"
    else if s = "high" then "🔴"
    else "❓"
  | _ => "❓"

/-- The preview shown after OCR: the first 200 characters of the recognized
text, with an ellipsis when it was truncated. -/
def previewOf (t : String) : String :=
  if t.length > 200 then t.take 200 ++ "..." else t

/-- Whether a parsed JSON value can be an sqlite3 query parameter: lists and
dicts are not bindable (`cursor.execute` raises `InterfaceError`), while
`None`, booleans, numbers and strings bind fine. -/
def bindable : Json → Bool
  | .arr _ => false
  | .obj _ => false
  | _ => true

/-- Whether the analyze branch's `INSERT` succeeds in binding its
analysis-derived parameters `analysis.get('productName', '?')`,
`analysis.get('verdict', '?')` and `analysis.get('riskLevel', '?')`
(`user_id`, `username`, the truncated composition and `json.dumps(analysis)`
are always bindable).  A `false` here raises at `cursor.execute`, before the
commit. -/
def insertOk (a : Json) : Bool :=
  bindable (jgetD a "productName" (.str "?")) &&
  bindable (jgetD a "verdict" (.str "?")) &&
  bindable (jgetD a "riskLevel" (.str "?"))

/-- Whether a parsed JSON value is hashable, i.e. usable as a `dict.get` key:
lists and dicts raise `TypeError`. -/
def hashable : Json → Bool
  | .arr _ => false
  | .obj _ => false
  | _ => true

/-- Whether `', '.join(v)` succeeds on a parsed JSON value: it needs an
iterable of strings — a list of strings, a string (joining its characters),
or a dict (joining its keys, which are strings); `None`, booleans and
numbers raise `TypeError`. -/
def joinable : Json → Bool
  | .str _ => true
  | .arr xs => xs.all (fun x => match x with | .str _ => true | _ => false)
  | .obj _ => true
  | _ => false

/-- Whether `for f in v` succeeds on a parsed JSON value (the `f"• {f}"`
formatting inside accepts anything, but iterating `None`, a boolean or a
number raises `TypeError`). -/
def iterableJson : Json → Bool
  | .str _ => true
  | .arr _ => true
  | .obj _ => true
  | _ => false

/-- Whether building the analysis response succeeds: the emoji lookup
`{...}.get(analysis.get('riskLevel'), '❓')` needs a hashable key, the
`', '.join` of `highlights` and `allergens` need joinable values, and the
`features` comprehension needs an iterable; any failure raises out of the
handler after the insert but before the send. -/
def formatOk (a : Json) : Bool :=
  hashable ((jget a "riskLevel").getD .null) &&
  joinable (jgetD a "highlights" (.arr [])) &&
  joinable (jgetD a "allergens" (.arr [])) &&
  iterableJson (jgetD a "features" (.arr []))

/-! ## Conversation Controller: `handle_photo` and `button_callback` -/

/-- `handle_photo`, with the OCR result supplied as an oracle: falsy text
(`None` or `''`) presents the failure message and leaves the session alone;
otherwise `last_composition` and `last_photo_path` are overwritten and a
preview with the analyze/edit/cancel buttons is sent.  Note that the code
never deletes `last_analysis` here. -/
def handle_photo (s : Session) (ocrResult : Option String) (path : String) :
    Session × List OutMsg :=
  match ocrResult with
  | none => (s, [.recognizing, .ocrFailed])
  | some t =>
    if t = "" then (s, [.recognizing, .ocrFailed])
    else (⟨some t, some path, s.last_analysis⟩, [.recognizing, .preview (previewOf t)])

/-- Per-event environment: the invoking user, the oracle result of whichever
`analyze_with_gemini` call the handler makes, whether the SQLite insert
raises, and the DB write timestamp. -/
structure Env where
  uid : Nat
  username : Option String
  gemini : Option Json
  dbFail : Bool
  now : Nat

/-- Result of running one handler: the updated session and store, the
messages sent (in order) before any exception, the gateway calls made, and
whether an uncaught exception escaped the handler. -/
structure StepResult where
  session : Session
  store : List HistoryRecord
  sent : List OutMsg
  calls : List GatewayCall
  raised : Bool

/-- The row inserted by the analyze branch:
`(user_id, username or 'unknown', analysis.get('productName','?'), composition[:500],
analysis.get('verdict','?'), analysis.get('riskLevel','?'), json.dumps(analysis))`,
with the autoincrement id and `CURRENT_TIMESTAMP` assigned at write time. -/
def mkRecord (env : Env) (store : List HistoryRecord) (comp : String) (a : Json) :
    HistoryRecord where
  id := store.length + 1
  user_id := env.uid
  username :=
    match env.username with
    | none => "unknown"
    | some u => if u = "" then "unknown" else u
  product_name := jgetD a "productName" (.str "?")
  composition := comp.take 500
  verdict := jgetD a "verdict" (.str "?")
  risk_level := jgetD a "riskLevel" (.str "?")
  json_result := a
  created_at := env.now

/-- `button_callback`: the `if/elif` chain on `query.data`.  The analyze
branch guards on a falsy `last_composition`, calls the gateway, then runs
the unguarded `INSERT`: an engine failure or an unbindable parameter raises
at `cursor.execute` before the commit (nothing stored, nothing further
sent); once the row is committed, the response construction itself can raise
(`TypeError` from the emoji lookup, the `', '.join`s or the `features`
iteration) — the row stays committed but the view is never sent and
`last_analysis` is not set; only when formatting succeeds is the analysis
presented and stored in the session.  The recipes branch performs no
composition guard and always calls the gateway with
`user_data.get('last_composition')`.  The back branch renders from
`user_data.get('last_analysis', {})`.  The cancel branch only edits the
message.  An unknown `query.data` (e.g. `edit`) matches no branch. -/
def button_callback (env : Env) (store : List HistoryRecord) (s : Session)
    (data : String) : StepResult :=
  if data = "analyze" then
    match s.last_composition with
    | none => ⟨s, store, [.textNotFound], [], false⟩
    | some comp =>
      if comp = "" then ⟨s, store, [.textNotFound], [], false⟩
      else
        let calls : List GatewayCall := [⟨"analyze", some comp⟩]
        match env.gemini with
        | none => ⟨s, store, [.analyzing, .analysisFailed], calls, false⟩
        | some a =>
          if pyFalsy a then ⟨s, store, [.analyzing, .analysisFailed], calls, false⟩
          else if env.dbFail || !insertOk a then ⟨s, store, [.analyzing], calls, true⟩
          else if formatOk a then
            ⟨⟨s.last_composition, s.last_photo_path, some a⟩,
             store ++ [mkRecord env store comp a],
             [.analyzing,
              .analysisView (riskEmoji (jget a "riskLevel"))
                (jgetD a "productName" (.str "Продукт")) (jgetD a "verdict" (.str "?")) a],
             calls, false⟩
          else ⟨s, store ++ [mkRecord env store comp a], [.analyzing], calls, true⟩
  else if data = "recipes" then
    let calls : List GatewayCall := [⟨"recipes", s.last_composition⟩]
    let rv := env.gemini.bind (fun r => jget r "recipes")
    if pyFalsyO env.gemini || pyFalsyO rv then
      ⟨s, store, [.generatingRecipes, .recipesFailed], calls, false⟩
    else
      match rv with
      | some (.arr items) =>
        ⟨s, store, [.generatingRecipes, .recipesView (items.take 3)], calls, false⟩
      | _ => ⟨s, store, [.generatingRecipes], calls, true⟩
  else if data = "back_to_analysis" then
    let a := s.last_analysis.getD (.obj [])
    ⟨s, store,
     [.backView (riskEmoji (jget a "riskLevel"))
        (jgetD a "productName" (.str "Продукт")) (jgetD a "verdict" (.str "?"))],
     [], false⟩
  else if data = "cancel" then ⟨s, store, [.cancelled], [], false⟩
  else ⟨s, store, [], [], false⟩

/-! ## History Store query and command dispatch -/

/-- Descending creation time, the order of `ORDER BY created_at DESC`. -/
def histLe (a b : HistoryRecord) : Prop := b.created_at ≤ a.created_at

instance : DecidableRel histLe := fun a b => Nat.decLe b.created_at a.created_at

instance : IsTotal HistoryRecord histLe :=
  ⟨fun a b => Nat.le_total b.created_at a.created_at⟩

instance : IsTrans HistoryRecord histLe :=
  ⟨fun _ _ _ hab hbc => Nat.le_trans hbc hab⟩

/-- The query of the `/history` handler:
`SELECT ... FROM analyses WHERE user_id = ? ORDER BY created_at DESC LIMIT 10`. -/
def listRecent (store : List HistoryRecord) (uid : Nat) : List HistoryRecord :=
  (List.insertionSort histLe (store.filter (fun r => r.user_id == uid))).take 10

/-- The `/history` handler: run the query and present either the empty-history
message or the rows (product, verdict, risk, created_at). -/
def history (store : List HistoryRecord) (uid : Nat) : List OutMsg :=
  let rows := listRecent store uid
  if rows.isEmpty then [.historyEmpty]
  else [.historyView (rows.map (fun r => (r.product_name, r.verdict, r.risk_level, r.created_at)))]

/-- The command handlers registered in `main()`: `start`, `help`, `history` —
and nothing else.  The help text advertises `/clear`, but no handler for it
is ever added. -/
def registeredCommands : List String := ["start", "help", "history"]

/-- Dispatch of a slash command per the handlers registered in `main()`: a
command with no registered handler matches nothing and the update is simply
dropped (no message, no state change). -/
def dispatchCommand (store : List HistoryRecord) (uid : Nat) (cmd : String) :
    List HistoryRecord × List OutMsg :=
  if cmd = "start" then (store, [.welcome])
  else if cmd = "help" then (store, [.helpText])
  else if cmd = "history" then (store, history store uid)
  else (store, [])

/-! ## Shared demonstration values and helper lemmas -/

/-- A store row written for user 1. -/
def recUser1 : HistoryRecord :=
  ⟨1, 1, "alice", .str "P1", "Sugar, Salt", .str "ok", .str "safe", .obj [], 5⟩

/-- A store row written for user 2. -/
def recUser2 : HistoryRecord :=
  ⟨2, 2, "bob", .str "P2", "Water", .str "ok", .str "moderate", .obj [], 6⟩

/-- If the text contains no opening brace, the regex does not match and the
extraction returns `None`. -/
theorem extractStructured_eq_none_of_no_brace (s : String)
    (h : s.toList.all (fun c => c ≠ '\x7b') = true) : extractStructured s = none := by
  have hf : s.toList.findIdx? (fun c => decide (c = '\x7b')) = none := by
    rw [List.findIdx?_eq_none_iff]
    intro x hx
    simpa using List.all_eq_true.mp h x hx
  unfold extractStructured greedyBraceSpan
  simp only [hf, Option.none_bind]

/-! ## C9 -/

/-- C9: for every store contents (any number of prior writes, arbitrarily
interleaved across users) and every invoking user, the `/history` query
returns at most 10 records, every returned record belongs to the invoking
user, and the records are ordered by descending creation time. -/
theorem c9_history_query_bounded_owned_sorted (store : List HistoryRecord) (uid : Nat) :
    (listRecent store uid).length ≤ 10 ∧
    (∀ r ∈ listRecent store uid, r.user_id = uid) ∧
    (listRecent store uid).Sorted histLe := by
  refine ⟨?_, ?_, ?_⟩
  · simp only [listRecent, List.length_take]
    exact Nat.min_le_left _ _
  · intro r hr
    have h1 : r ∈ List.insertionSort histLe (store.filter (fun r => r.user_id == uid)) :=
      List.mem_of_mem_take hr
    have h2 : r ∈ store.filter (fun r => r.user_id == uid) :=
      (List.perm_insertionSort histLe _).mem_iff.mp h1
    simpa using (List.mem_filter.mp h2).2
  · exact ((List.sorted_insertionSort histLe _).sublist (List.take_sublist _ _))

/-- Closed instantiation of the C9 theorem on a concrete two-user store. -/
theorem c9_history_query_witness : recUser1.user_id = 1 :=
  (c9_history_query_bounded_owned_sorted [recUser2, recUser1] 1).2.1 recUser1
    (List.mem_cons_self _ _)

/-! ## C6 -/

/-- C6 (code bug): `main()` registers no handler for the `/clear` command
(even though the help text advertises it), so issuing the clear-history
command removes nothing: on a store holding a record of the issuing user,
dispatching `clear` leaves the store unchanged, sends nothing, and the
user's record is still present afterwards. -/
theorem c6_clear_command_has_no_handler :
    dispatchCommand [recUser1, recUser2] 1 "clear" = ([recUser1, recUser2], []) ∧
    "clear" ∉ registeredCommands ∧
    recUser1 ∈ (dispatchCommand [recUser1, recUser2] 1 "clear").1 :=
  ⟨rfl, by simp [registeredCommands], List.mem_cons_self _ _⟩

/-! ## C7 -/

/-- C7 counterexample: with a session in the `Analyzed` shape (recognized
text, photo path and analysis all present), choosing `cancel` leaves every
field present — `lastRecognizedText` is not cleared, contradicting the claim
that the session is cleared and becomes `Idle`. -/
theorem c7_counterexample :
    (button_callback ⟨1, some "u", none, false, 0⟩ []
        ⟨some "txt", some "p1", some (.obj [("verdict", .str "ok")])⟩ "cancel").session
      = ⟨some "txt", some "p1", some (.obj [("verdict", .str "ok")])⟩ ∧
    (button_callback ⟨1, some "u", none, false, 0⟩ []
        ⟨some "txt", some "p1", some (.obj [("verdict", .str "ok")])⟩ "cancel").session.last_composition
      ≠ none :=
  ⟨rfl, by decide⟩

/-- C7 amended: choosing `cancel` only presents the cancellation message;
the session is left entirely unchanged (recognized text and analysis are
retained, nothing becomes absent), and the store is untouched. -/
theorem c7_cancel_leaves_session_unchanged (env : Env) (store : List HistoryRecord)
    (s : Session) :
    button_callback env store s "cancel" = ⟨s, store, [.cancelled], [], false⟩ := rfl

/-! ## C1 -/

/-- C1 counterexample: a session holding the first photo's text and analysis;
a second photo whose recognition succeeds replaces the text, yet the analysis
derived from the first photo is still stored in the session afterwards. -/
theorem c1_counterexample :
    (handle_photo ⟨some "first", some "p1", some (.obj [("productName", .str "Old")])⟩
        (some "second") "p2").1.last_analysis
      = some (.obj [("productName", .str "Old")]) ∧
    (handle_photo ⟨some "first", some "p1", some (.obj [("productName", .str "Old")])⟩
        (some "second") "p2").1.last_composition = some "second" :=
  ⟨rfl, rfl⟩

/-- C1 amended: handling a new photo whose recognition succeeds replaces the
session's `lastRecognizedText` (and photo path) with the new values but does
not invalidate `lastAnalysis`: the previously stored analysis remains in the
session (the code stores no `lastRecipes` at all), so analysis derived from
the first of two photos is still reachable after the second. -/
theorem c1_photo_keeps_stale_analysis (s : Session) (t path : String) (h : t ≠ "") :
    handle_photo s (some t) path
      = (⟨some t, some path, s.last_analysis⟩, [.recognizing, .preview (previewOf t)]) := by
  simp [handle_photo, h]

/-- Closed instantiation of the C1 amended theorem. -/
theorem c1_photo_keeps_stale_analysis_witness :
    handle_photo ⟨some "first", some "p1", some (.obj [("productName", .str "Old")])⟩
        (some "second") "p2"
      = (⟨some "second", some "p2", some (.obj [("productName", .str "Old")])⟩,
         [.recognizing, .preview (previewOf "second")]) :=
  c1_photo_keeps_stale_analysis _ "second" "p2" (by decide)

/-! ## C2 -/

/-- C2 counterexample: with `lastRecognizedText` absent (fresh session),
pressing `recipes` does perform an Analysis Gateway call (passing the absent
text), and — when that call fails — shows the generic recipes-failure
message, not the missing-text error that `analyze` shows. -/
theorem c2_counterexample :
    (button_callback ⟨1, some "u", none, false, 0⟩ [] Session.empty "recipes").calls ≠ [] ∧
    (button_callback ⟨1, some "u", none, false, 0⟩ [] Session.empty "recipes").calls
      = [⟨"recipes", none⟩] ∧
    (button_callback ⟨1, some "u", none, false, 0⟩ [] Session.empty "recipes").sent
      = [.generatingRecipes, .recipesFailed] :=
  ⟨by decide, rfl, rfl⟩

/-- C2 amended: pressing `recipes` with no recognized text does not
short-circuit: the Analysis Gateway is always invoked with the absent text,
a failed call yields the generic recipes-failure message, and the
missing-text error is never among the responses — in contrast to `analyze`,
which on the same session short-circuits with the missing-text error and
performs no gateway call. -/
theorem c2_recipes_without_text_calls_gateway (env : Env) (store : List HistoryRecord)
    (h : env.gemini = none) :
    (button_callback env store Session.empty "recipes").calls = [⟨"recipes", none⟩] ∧
    (button_callback env store Session.empty "recipes").sent
      = [.generatingRecipes, .recipesFailed] ∧
    OutMsg.textNotFound ∉ (button_callback env store Session.empty "recipes").sent ∧
    (button_callback env store Session.empty "analyze").calls = [] ∧
    (button_callback env store Session.empty "analyze").sent = [.textNotFound] := by
  refine ⟨?_, ?_, ?_, rfl, rfl⟩ <;>
    simp [button_callback, Session.empty, h, pyFalsyO]

/-- Closed instantiation of the C2 amended theorem. -/
theorem c2_recipes_without_text_calls_gateway_witness :
    (button_callback ⟨1, some "u", none, false, 0⟩ [] Session.empty "recipes").sent
      = [.generatingRecipes, .recipesFailed] :=
  (c2_recipes_without_text_calls_gateway ⟨1, some "u", none, false, 0⟩ [] rfl).2.1

/-! ## C3 -/

/-- C3 counterexample: an analysis without a `riskLevel` key is persisted
with the sentinel `'?'`, and one with the out-of-enumeration value
`'weird'` is persisted verbatim — in neither case is the stored value the
claimed sentinel `'unknown'`. -/
theorem c3_counterexample :
    ((button_callback ⟨7, some "u", some (.obj [("productName", .str "Snack")]), false, 42⟩
        [] ⟨some "comp", none, none⟩ "analyze").store.map (fun r => r.risk_level))
      = [.str "?"] ∧
    ((button_callback ⟨7, some "u",
        some (.obj [("productName", .str "Snack"), ("riskLevel", .str "weird")]), false, 42⟩
        [] ⟨some "comp", none, none⟩ "analyze").store.map (fun r => r.risk_level))
      = [.str "weird"] :=
  ⟨rfl, rfl⟩

/-- C3 amended: on an analyze event whose insert succeeds (no engine
failure, parameters bindable) the persisted record stores
`analysis.get('riskLevel', '?')` — the sentinel `'?'` when the key is
absent, the provider's value verbatim otherwise — and the stored value
equals `'safe'` only when the analysis itself carried `'safe'`, never by
defaulting; when the response formatting also succeeds, the presented view
carries `riskEmoji` of the raw value, whose fallback for out-of-enumeration
values is `'❓'`. -/
theorem c3_risk_level_never_defaults_to_safe (env : Env) (store : List HistoryRecord)
    (s : Session) (comp : String) (a : Json)
    (h1 : s.last_composition = some comp) (h2 : comp ≠ "") (h3 : env.gemini = some a)
    (h4 : pyFalsy a = false) (h5 : env.dbFail = false) (h6 : insertOk a = true) :
    (button_callback env store s "analyze").store = store ++ [mkRecord env store comp a] ∧
    (mkRecord env store comp a).risk_level = (jget a "riskLevel").getD (.str "?") ∧
    ((mkRecord env store comp a).risk_level = .str "safe" →
      jget a "riskLevel" = some (.str "safe")) ∧
    (formatOk a = true →
      (button_callback env store s "analyze").sent
        = [.analyzing,
           .analysisView (riskEmoji (jget a "riskLevel"))
             (jgetD a "productName" (.str "Продукт")) (jgetD a "verdict" (.str "?")) a]) := by
  refine ⟨?_, rfl, ?_, ?_⟩
  · cases hf : formatOk a <;>
      simp [button_callback, h1, h2, h3, h4, h5, h6, hf]
  · intro hsafe
    cases hv : jget a "riskLevel" with
    | none =>
      exfalso
      simp [mkRecord, jgetD, hv] at hsafe
    | some v =>
      have : v = .str "safe" := by simpa [mkRecord, jgetD, hv] using hsafe
      rw [this]
  · intro hf
    simp [button_callback, h1, h2, h3, h4, h5, h6, hf]

/-- Closed instantiation of the C3 amended theorem, exercising the insert
and the successfully formatted view. -/
theorem c3_risk_level_never_defaults_to_safe_witness :
    (button_callback ⟨7, some "u", some (.obj [("productName", .str "Snack")]), false, 42⟩ []
        ⟨some "comp", none, none⟩ "analyze").sent
      = [.analyzing,
         .analysisView (riskEmoji (jget (.obj [("productName", .str "Snack")]) "riskLevel"))
           (jgetD (.obj [("productName", .str "Snack")]) "productName" (.str "Продукт"))
           (jgetD (.obj [("productName", .str "Snack")]) "verdict" (.str "?"))
           (.obj [("productName", .str "Snack")])] :=
  (c3_risk_level_never_defaults_to_safe
      ⟨7, some "u", some (.obj [("productName", .str "Snack")]), false, 42⟩ []
      ⟨some "comp", none, none⟩ "comp" (.obj [("productName", .str "Snack")])
      rfl (by decide) rfl rfl rfl rfl).2.2.2 rfl

/-! ## C5 -/

/-- C5 counterexample: recognized text present, well-formed analysis
returned, but the history insert raises — only the progress message has been
sent, the structured analysis is never presented, nothing is stored, and the
exception escapes the handler. -/
theorem c5_counterexample :
    (button_callback ⟨3, some "bob",
        some (.obj [("productName", .str "P"), ("riskLevel", .str "safe")]), true, 9⟩
        [] ⟨some "comp", none, none⟩ "analyze").sent = [.analyzing] ∧
    (button_callback ⟨3, some "bob",
        some (.obj [("productName", .str "P"), ("riskLevel", .str "safe")]), true, 9⟩
        [] ⟨some "comp", none, none⟩ "analyze").raised = true :=
  ⟨rfl, rfl⟩

/-- C5 amended: the history insert is not guarded by any `try`, so on a
`PersistenceError` the exception propagates out of the event handler: the
analysis view is never sent, `lastAnalysis` is not updated, the store is
unchanged, and the handler does not itself log the failure. -/
theorem c5_db_failure_aborts_handler (env : Env) (store : List HistoryRecord) (s : Session)
    (comp : String) (a : Json)
    (h1 : s.last_composition = some comp) (h2 : comp ≠ "") (h3 : env.gemini = some a)
    (h4 : pyFalsy a = false) (h5 : env.dbFail = true) :
    button_callback env store s "analyze"
      = ⟨s, store, [.analyzing], [⟨"analyze", some comp⟩], true⟩ := by
  simp [button_callback, h1, h2, h3, h4, h5]

/-- Closed instantiation of the C5 amended theorem. -/
theorem c5_db_failure_aborts_handler_witness :
    button_callback ⟨3, some "bob",
        some (.obj [("productName", .str "P"), ("riskLevel", .str "safe")]), true, 9⟩
        [] ⟨some "comp", none, none⟩ "analyze"
      = ⟨⟨some "comp", none, none⟩, [], [.analyzing], [⟨"analyze", some "comp"⟩], true⟩ :=
  c5_db_failure_aborts_handler _ [] _ "comp"
    (.obj [("productName", .str "P"), ("riskLevel", .str "safe")])
    rfl (by decide) rfl rfl rfl

/-! ## C8 -/

/-- C8 counterexample: with `lastAnalysis` absent, the `back_to_analysis`
handler renders a view from the empty dict — emoji `'❓'`, name `'Продукт'`,
verdict `'?'` — a fabricated placeholder analysis, not a "nothing to show"
error. -/
theorem c8_counterexample :
    (button_callback ⟨1, some "u", none, false, 0⟩ [] ⟨some "txt", none, none⟩
        "back_to_analysis").sent
      = [.backView "❓" (.str "Продукт") (.str "?")] := rfl

/-- C8 amended: if the session's `lastAnalysis` is present, `back` redisplays
that stored analysis (risk emoji, product name, verdict) and leaves the
session unchanged; if it is absent, the same view is rendered from an empty
object — a placeholder (`'❓'`, `'Продукт'`, `'?'`) instead of an error. -/
theorem c8_back_redisplays_or_placeholder (env : Env) (store : List HistoryRecord)
    (s : Session) (a : Json) (h : s.last_analysis = some a) :
    (button_callback env store s "back_to_analysis").sent
      = [.backView (riskEmoji (jget a "riskLevel"))
          (jgetD a "productName" (.str "Продукт")) (jgetD a "verdict" (.str "?"))] ∧
    (button_callback env store s "back_to_analysis").session = s ∧
    (∀ s2 : Session, s2.last_analysis = none →
      (button_callback env store s2 "back_to_analysis").sent
        = [.backView "❓" (.str "Продукт") (.str "?")]) := by
  refine ⟨by simp [button_callback, h], rfl, ?_⟩
  intro s2 h2
  simp [button_callback, h2, riskEmoji, jget, jgetD]

/-- Closed instantiation of the C8 amended theorem. -/
theorem c8_back_redisplays_or_placeholder_witness :
    (button_callback ⟨1, some "u", none, false, 0⟩ []
        ⟨some "txt", none, some (.obj [("productName", .str "P"), ("riskLevel", .str "high")])⟩
        "back_to_analysis").sent
      = [.backView (riskEmoji (jget (.obj [("productName", .str "P"), ("riskLevel", .str "high")]) "riskLevel"))
          (jgetD (.obj [("productName", .str "P"), ("riskLevel", .str "high")]) "productName" (.str "Продукт"))
          (jgetD (.obj [("productName", .str "P"), ("riskLevel", .str "high")]) "verdict" (.str "?"))] :=
  (c8_back_redisplays_or_placeholder ⟨1, some "u", none, false, 0⟩ []
      ⟨some "txt", none, some (.obj [("productName", .str "P"), ("riskLevel", .str "high")])⟩
      (.obj [("productName", .str "P"), ("riskLevel", .str "high")]) rfl).1

/-! ## C4 -/

/-- C4 counterexample: on a response holding two top-level objects, the
first balanced object literal exists and parses, yet the code's extraction
returns `None` (its greedy span covers both objects and is not valid JSON);
and on an object missing every required field the code's extraction succeeds
instead of rejecting. -/
theorem c4_counterexample :
    firstBalancedObject "\x7b\"a\": 1\x7d \x7b\"b\": 2\x7d" = some "\x7b\"a\": 1\x7d" ∧
    json_loads "\x7b\"a\": 1\x7d" = some (.obj [("a", .num 1)]) ∧
    (firstBalancedObject "\x7b\"a\": 1\x7d \x7b\"b\": 2\x7d").bind json_loads
      = some (.obj [("a", .num 1)]) ∧
    extractStructured "\x7b\"a\": 1\x7d \x7b\"b\": 2\x7d" = none ∧
    extractStructured "\x7b\"x\": 1\x7d" = some (.obj [("x", .num 1)]) :=
  ⟨rfl, rfl, rfl, rfl, rfl⟩

/-- C4 amended: extraction takes the span from the first opening brace to
the last closing brace of the whole response and parses that entire span
with `json.loads`: it returns `None` when no such span exists (no object or
a truncated object) and also when the span as a whole is not valid JSON —
so a response containing several top-level objects fails rather than
yielding the first — and it performs no required-field validation: a parsed
object is returned even when every required field is absent. -/
theorem c4_extraction_greedy_span_no_validation :
    (∀ s : String, s.toList.all (fun c => c ≠ '\x7b') = true → extractStructured s = none) ∧
    extractStructured "no json here" = none ∧
    extractStructured "start \x7b\"a\": 1" = none ∧
    extractStructured "\x7b\"a\": 1\x7d tail \x7b\"b\": 2\x7d" = none ∧
    extractStructured "pre \x7b\"productName\": \"P\"\x7d"
      = some (.obj [("productName", .str "P")]) ∧
    extractStructured "\x7b\"y\": 2\x7d" = some (.obj [("y", .num 2)]) :=
  ⟨extractStructured_eq_none_of_no_brace, rfl, rfl, rfl, rfl, rfl⟩

/-- Closed instantiation of the C4 amended theorem. -/
theorem c4_extraction_greedy_span_no_validation_witness :
    extractStructured "abc" = none :=
  c4_extraction_greedy_span_no_validation.1 "abc" (by decide)

/-! ## C10 -/

/-- C10 counterexample: a 200 OCR response whose result list is present but
empty yields the empty string, not `None` — the wrapper's "nothing
extracted" outcome is `''`, which callers handle only because they test
falsiness. -/
theorem c10_counterexample :
    ocr_recognize (.response 200 ⟨some []⟩) = some "" ∧
    ocr_recognize (.response 200 ⟨some []⟩) ≠ none :=
  ⟨rfl, by decide⟩

/-- C10 amended: both gateway wrappers are total and never propagate an
exception: on a provider exception or a non-success status each returns
`None`; `analyze_with_gemini` also returns `None` when nothing can be
extracted from the content; `ocr_recognize` on a success status returns the
concatenated text — the empty string, not `None`, when no fragments were
recognized — and the callers branch on falsiness (`None` or `''`) to present
an error. -/
theorem c10_wrappers_total_falsy_on_failure :
    (ocr_recognize .exn = none) ∧
    (∀ st body, st ≠ 200 → ocr_recognize (.response st body) = none) ∧
    (∀ body, ocr_recognize (.response 200 body) = some (collectText body)) ∧
    (analyze_with_gemini .exn = none) ∧
    (∀ st body, st ≠ 200 → analyze_with_gemini (.response st body) = none) ∧
    (∀ body t, geminiContent body = some t → t.toList.all (fun c => c ≠ '\x7b') = true →
      analyze_with_gemini (.response 200 body) = none) ∧
    (∀ s path, handle_photo s none path = (s, [.recognizing, .ocrFailed]) ∧
      handle_photo s (some "") path = (s, [.recognizing, .ocrFailed])) ∧
    (∀ env store s comp, s.last_composition = some comp → comp ≠ "" → env.gemini = none →
      (button_callback env store s "analyze").sent = [.analyzing, .analysisFailed]) := by
  refine ⟨rfl, ?_, ?_, rfl, ?_, ?_, ?_, ?_⟩
  · intro st body h
    simp [ocr_recognize, h]
  · intro body
    rfl
  · intro st body h
    simp [analyze_with_gemini, h]
  · intro body t ht hb
    simp [analyze_with_gemini, ht, extractStructured_eq_none_of_no_brace t hb]
  · intro s path
    exact ⟨rfl, rfl⟩
  · intro env store s comp h1 h2 h3
    simp [button_callback, h1, h2, h3]

/-- Closed instantiation of the C10 amended theorem. -/
theorem c10_wrappers_total_falsy_on_failure_witness :
    ocr_recognize (.response 500 ⟨some []⟩) = none :=
  c10_wrappers_total_falsy_on_failure.2.1 500 ⟨some []⟩ (by decide)

end LabelSpy
